import Mathlib

/-! Verification development for the LoadExc client repository: a shallow
embedding of the camera publisher pipeline (capture loop, processing loop,
publish tick, drop-oldest relay queues, lifecycle flag) from
python_client/camera_publisher.py, of the client publishing path from
python_client/client.py, and of the unified control message JSON handling
from python_client/control_message.py, together with theorems settling the
specification claims. -/

/-- A raw camera frame as delivered by the capture device: height, width and
channel count of the pixel array. Pixel payloads are tracked by their byte
length throughout, since pixel values are produced by the external imaging
library. -/
structure RawFrame where
  height : Nat
  width : Nat
  channels : Nat
deriving Repr, DecidableEq

/-- queue.Queue.get_nowait on a FIFO queue modelled as a list with the oldest
item at the head: return and remove the head, or signal Empty (none). -/
def try_take {α : Type} (q : List α) : Option α × List α :=
  match q with
  | [] => (none, [])
  | x :: t => (some x, t)

/-- The drop-oldest put performed by capture_loop on raw_frame_queue and by
processing_loop on processed_frame_queue (camera_publisher.py lines 138-145
and 187-195): put_nowait, and on queue.Full remove one item with get_nowait
(discarding the oldest) and put_nowait the new item; if that inner get raises
queue.Empty the new item is dropped (pass). put_nowait raises Full exactly
when the queue already holds cap items. -/
def try_put {α : Type} (cap : Nat) (q : List α) (x : α) : List α :=
  if q.length < cap then q ++ [x]
  else
    match q with
    | [] => []
    | _ :: t => t ++ [x]

lemma try_put_length_le {α : Type} (q : List α) (x : α) (h : q.length ≤ 2) :
    (try_put 2 q x).length ≤ 2 := by
  match q with
  | [] => simp [try_put]
  | [y] => simp [try_put]
  | [y, z] => simp [try_put]
  | y :: z :: w :: t => simp at h

lemma try_put_two {α : Type} (q : List α) (a b : α) (h : q.length ≤ 2) :
    try_put 2 (try_put 2 q a) b = [a, b] := by
  match q with
  | [] => rfl
  | [x] => rfl
  | [x, y] => rfl
  | x :: y :: z :: t => simp at h

lemma foldl_try_put_length {α : Type} (ps : List α) (q : List α)
    (h : q.length ≤ 2) : (List.foldl (try_put 2) q ps).length ≤ 2 := by
  induction ps generalizing q with
  | nil => simpa using h
  | cons p ps ih => exact ih _ (try_put_length_le q p h)

/-- C1: starting from any reachable queue state (at most 2 items), after a
sequence of drop-oldest try-puts ending in at least two puts, the capacity-2
relay queue holds exactly the last two items put, so a subsequent take yields
the 2nd-to-last put — never anything older than 2 puts ago. -/
theorem c1_relay_queue_keeps_last_two {α : Type} (q0 : List α)
    (h : q0.length ≤ 2) (ps : List α) (a b : α) :
    List.foldl (try_put 2) q0 (ps ++ [a, b]) = [a, b] ∧
    try_take (List.foldl (try_put 2) q0 (ps ++ [a, b])) = (some a, [b]) := by
  have hfin : List.foldl (try_put 2) q0 (ps ++ [a, b]) = [a, b] := by
    rw [List.foldl_append]
    simpa [List.foldl] using
      try_put_two (List.foldl (try_put 2) q0 ps) a b
        (foldl_try_put_length ps q0 h)
  exact ⟨hfin, by rw [hfin]; rfl⟩

/-- Witness for C1: ten consecutive puts 1..10 into the empty capacity-2
queue leave [9, 10], and a single take returns 9, the 2nd-to-last put. -/
theorem c1_relay_queue_keeps_last_two_witness :
    List.foldl (try_put 2) ([] : List Nat)
        ([1, 2, 3, 4, 5, 6, 7, 8] ++ [9, 10]) = [9, 10] ∧
    try_take (List.foldl (try_put 2) ([] : List Nat)
        ([1, 2, 3, 4, 5, 6, 7, 8] ++ [9, 10])) = (some 9, [10]) :=
  c1_relay_queue_keeps_last_two [] (by decide) [1, 2, 3, 4, 5, 6, 7, 8] 9 10

/-- The packaged tuple (data, h, w, encoding, step) that processing_loop puts
on processed_frame_queue (camera_publisher.py line 185); the payload is
tracked by its byte length. -/
structure ProcessedData where
  dataLen : Nat
  h : Nat
  w : Nat
  encoding : String
  step : Nat
deriving Repr, DecidableEq

/-- Byte length of the planar I420 array produced for an h-by-w 3-channel
input: the output has shape (h * 3 / 2, w) of single bytes. Modelled from the
external imaging library (cv2.cvtColor with COLOR_BGR2YUV_I420). -/
def i420ByteLen (h w : Nat) : Nat := h * 3 / 2 * w

/-- The conversion/packaging step of processing_loop (camera_publisher.py
lines 160-185): read h, w from the frame shape, convert to the configured
target encoding, and package (data, h, w, encoding, step) with step
initialised to w and overwritten to w * 3 on the packed branches. The
conversion preconditions — a 3-channel input, and additionally even width and
height for I420 — are modelled from the external imaging library, which
raises an error when they are violated; frame.tobytes on the bgr8 branch
never raises. -/
def processing_convert (enc : String) (f : RawFrame) :
    Except String ProcessedData :=
  let h := f.height
  let w := f.width
  if enc = "i420" then
    if f.channels = 3 ∧ h % 2 = 0 ∧ w % 2 = 0 then
      .ok { dataLen := i420ByteLen h w, h := h, w := w,
            encoding := "i420", step := w }
    else .error "cvtColor COLOR_BGR2YUV_I420 failed"
  else if enc = "rgb8" then
    if f.channels = 3 then
      .ok { dataLen := h * w * 3, h := h, w := w,
            encoding := "rgb8", step := w * 3 }
    else .error "cvtColor COLOR_BGR2RGB failed"
  else
    .ok { dataLen := h * w * f.channels, h := h, w := w,
          encoding := "bgr8", step := w * 3 }

/-- One iteration of the processing loop body (camera_publisher.py lines
156-201) after the bounded-timeout get on raw_frame_queue: none models the
get timing out with queue.Empty (continue); a raised conversion error is
caught by the except clause, logged, and the frame is dropped. Returns the
new processed queue and the log lines emitted by the iteration. -/
def processing_iteration (enc : String) (r : Option RawFrame)
    (pq : List ProcessedData) : List ProcessedData × List String :=
  match r with
  | none => (pq, [])
  | some f =>
    match processing_convert enc f with
    | .ok pd => (try_put 2 pq pd, [])
    | .error e => (pq, ["processing thread error: " ++ e])

/-- The timeout (seconds) of the processing loop's bounded wait on
raw_frame_queue (camera_publisher.py line 158). -/
def processingGetTimeout : ℚ := 1

/-- The processing loop (camera_publisher.py lines 153-201) over a finite
trace: each trace element records the value of the lifecycle flag
self.running observed at the while-guard, and the outcome of that
iteration's bounded get (at most processingGetTimeout seconds) on
raw_frame_queue; the loop exits at the first guard observing a cleared
flag. -/
def processing_loop (enc : String) :
    List (Bool × Option RawFrame) → List ProcessedData → List ProcessedData
  | [], pq => pq
  | (running, r) :: rest, pq =>
    if running then processing_loop enc rest (processing_iteration enc r pq).1
    else pq

/-- The outcome of one capture-loop iteration besides the queue update:
either the frame was relay-put, or the read failed and the loop slept for the
given number of seconds before retrying. -/
inductive CaptureAct where
  | enqueued
  | retryAfterSleep (delay : ℚ)
deriving Repr, DecidableEq

/-- One iteration of the capture loop body (camera_publisher.py lines
134-145): a failed read (none) sleeps 0.01 s and retries; a successful read
is relay-put into raw_frame_queue. -/
def capture_iteration (r : Option RawFrame) (q : List RawFrame) :
    List RawFrame × CaptureAct :=
  match r with
  | none => (q, .retryAfterSleep (1 / 100))
  | some f => (try_put 2 q f, .enqueued)

/-- The capture loop (camera_publisher.py lines 131-145) over a finite trace
of (observed lifecycle flag, read outcome) pairs; the loop exits at the first
guard observing a cleared flag. -/
def capture_loop :
    List (Bool × Option RawFrame) → List RawFrame → List RawFrame
  | [], q => q
  | (running, r) :: rest, q =>
    if running then capture_loop rest (capture_iteration r q).1
    else q

/-- A ROS sensor_msgs Image as populated by publish_frame
(camera_publisher.py lines 210-218); the payload is tracked by its byte
length, and stamp is the clock value read when the message was built. -/
structure ImageMsg where
  stamp : Nat
  frame_id : String
  height : Nat
  width : Nat
  encoding : String
  is_bigendian : Nat
  step : Nat
  dataLen : Nat
deriving Repr, DecidableEq

/-- The publish tick (camera_publisher.py lines 203-227): exactly one
non-blocking get_nowait on processed_frame_queue; on queue.Empty nothing is
published and the state is unchanged; otherwise exactly one Image message
carrying a freshly read clock stamp is published. Returns the new queue and
the list of messages published by the tick. -/
def publish_frame (clock : Nat) (q : List ProcessedData) :
    List ProcessedData × List ImageMsg :=
  match try_take q with
  | (none, q2) => (q2, [])
  | (some p, q2) =>
    (q2, [{ stamp := clock, frame_id := "camera_link", height := p.h,
            width := p.w, encoding := p.encoding, is_bigendian := 0,
            step := p.step, dataLen := p.dataLen }])

/-- The image message built by the client's publish_video_frame for an h-by-w
BGR frame converted to I420 (client.py lines 131-144): step is the second
shape component of the I420 array, i.e. w. -/
def publish_video_frame_msg (clock : Nat) (h w : Nat) : ImageMsg :=
  { stamp := clock, frame_id := "camera_link", height := h, width := w,
    encoding := "i420", is_bigendian := 0, step := w,
    dataLen := i420ByteLen h w }

/-- Python str.lower as applied to the encoding argument: lowercase each
character. -/
def pyLower (s : String) : String := String.mk (s.data.map Char.toLower)

/-- Encoding validation in the publisher constructor (camera_publisher.py
lines 61-65): lowercase the argument; if the result is not one of bgr8,
rgb8, i420, log a warning and fall back to i420. Returns the effective
encoding and the warnings logged. -/
def init_encoding (encoding : String) : String × List String :=
  let e := pyLower encoding
  if e = "bgr8" ∨ e = "rgb8" ∨ e = "i420" then (e, [])
  else ("i420", ["unsupported encoding, falling back to i420"])

/-- A capture handle as returned by open_camera; the claims only depend on
whether it is opened. -/
structure Cap where
  opened : Bool
deriving Repr, DecidableEq

/-- What the publisher constructor does next after the camera check: either
terminate the process via sys.exit with the given code, or continue
initialisation. -/
inductive InitOutcome where
  | exitProcess (code : Nat)
  | continueInit
deriving Repr, DecidableEq

/-- The constructor camera check (camera_publisher.py lines 67-71): if
open_camera returned no handle, or an unopened one, log two error lines and
sys.exit(1); otherwise continue. Returns the outcome and the error lines
logged. -/
def check_camera (cap : Option Cap) : InitOutcome × List String :=
  match cap with
  | none =>
    (.exitProcess 1, ["cannot open camera", "troubleshooting hints"])
  | some c =>
    if c.opened then (.continueInit, [])
    else (.exitProcess 1, ["cannot open camera", "troubleshooting hints"])

/-- The lifecycle state shared by the pipeline stages: the running flag and
whether the capture handle is still held. -/
structure PublisherState where
  running : Bool
  capOpen : Bool
deriving Repr, DecidableEq

/-- destroy_node (camera_publisher.py lines 229-233): clear the lifecycle
flag and release the capture handle. -/
def destroy_node (_s : PublisherState) : PublisherState :=
  { running := false, capOpen := false }

/-- A parsed JSON value (the output of json.loads): numbers as rationals,
objects as key-value lists with the unique keys the JSON parser produces. -/
inductive JVal where
  | jnull
  | jbool (b : Bool)
  | jnum (q : ℚ)
  | jstr (s : String)
  | jarr (xs : List JVal)
  | jobj (fields : List (String × JVal))
deriving Repr

/-- The Python exception classes relevant to update_from_json; a JSON decode
failure is modelled separately, by the parser returning none. -/
inductive PyErr where
  | typeError
  | keyError
  | attributeError
deriving Repr, DecidableEq

/-- Whether the character list k occurs contiguously inside l (Python
substring membership, used by the in operator on strings). -/
def charsHaveRun (k : List Char) : List Char → Bool
  | [] => k.isEmpty
  | c :: rest => k.isPrefixOf (c :: rest) || charsHaveRun k rest

/-- The Python membership test key in data as evaluated inside
update_from_json: key lookup for dicts, element equality for lists (a string
compares equal only to an equal string), substring containment for strings,
and a TypeError for non-container values. -/
def pyContains (data : JVal) (key : String) : Except PyErr Bool :=
  match data with
  | .jobj fs => .ok (List.lookup key fs).isSome
  | .jarr xs =>
    .ok (xs.any fun v =>
      match v with
      | .jstr s => s == key
      | _ => false)
  | .jstr s => .ok (charsHaveRun key.toList s.toList)
  | _ => .error .typeError

/-- Python data[key] with a string key: dict lookup (KeyError when the key is
absent); TypeError on lists, strings and scalars. -/
def pyIndex (data : JVal) (key : String) : Except PyErr JVal :=
  match data with
  | .jobj fs =>
    match List.lookup key fs with
    | some v => .ok v
    | none => .error .keyError
  | _ => .error .typeError

/-- Python v_obj.get(key, default): dict lookup with a default;
AttributeError when v_obj is not a dict. -/
def dictGet (v : JVal) (key : String) (dflt : JVal) : Except PyErr JVal :=
  match v with
  | .jobj fs => .ok ((List.lookup key fs).getD dflt)
  | _ => .error .attributeError

/-- Python equality comparison of a JSON value with a string literal. -/
def jvalIsStr (v : JVal) (s : String) : Bool :=
  match v with
  | .jstr t => t == s
  | _ => false

/-- The unified control message (control_message.py lines 13-32); fields hold
the raw JSON values that update_from_json assigns. -/
structure UnifiedControlMessage where
  rotation : JVal
  brake : JVal
  throttle : JVal
  gear : JVal
  boom : JVal
  bucket : JVal
  left_track : JVal
  right_track : JVal
  swing : JVal
  stick : JVal
  device_type : JVal
  timestamp : JVal

/-- UnifiedControlMessage construction with construction-time clock t0: every
axis 0.0, gear N, device_type wheel_loader, timestamp int(time.time()*1000)
= t0. -/
def UnifiedControlMessage.init (t0 : ℚ) : UnifiedControlMessage :=
  { rotation := .jnum 0, brake := .jnum 0, throttle := .jnum 0,
    gear := .jstr "N", boom := .jnum 0, bucket := .jnum 0,
    left_track := .jnum 0, right_track := .jnum 0, swing := .jnum 0,
    stick := .jnum 0, device_type := .jstr "wheel_loader",
    timestamp := .jnum t0 }

/-- The analog branch of update_from_json (control_message.py lines 49-58):
nine sequential v_obj.get calls, each assigning its field immediately and
defaulting to the field's current value; the error side carries the message
state reached when the exception was raised. -/
def applyAnalog (m : UnifiedControlMessage) (vobj : JVal) :
    Except (PyErr × UnifiedControlMessage) UnifiedControlMessage :=
  match dictGet vobj "rotation" m.rotation with
  | .error e => .error (e, m)
  | .ok v1 =>
  let m1 := { m with rotation := v1 }
  match dictGet vobj "brake" m1.brake with
  | .error e => .error (e, m1)
  | .ok v2 =>
  let m2 := { m1 with brake := v2 }
  match dictGet vobj "throttle" m2.throttle with
  | .error e => .error (e, m2)
  | .ok v3 =>
  let m3 := { m2 with throttle := v3 }
  match dictGet vobj "boom" m3.boom with
  | .error e => .error (e, m3)
  | .ok v4 =>
  let m4 := { m3 with boom := v4 }
  match dictGet vobj "bucket" m4.bucket with
  | .error e => .error (e, m4)
  | .ok v5 =>
  let m5 := { m4 with bucket := v5 }
  match dictGet vobj "leftTrack" m5.left_track with
  | .error e => .error (e, m5)
  | .ok v6 =>
  let m6 := { m5 with left_track := v6 }
  match dictGet vobj "rightTrack" m6.right_track with
  | .error e => .error (e, m6)
  | .ok v7 =>
  let m7 := { m6 with right_track := v7 }
  match dictGet vobj "swing" m7.swing with
  | .error e => .error (e, m7)
  | .ok v8 =>
  let m8 := { m7 with swing := v8 }
  match dictGet vobj "stick" m8.stick with
  | .error e => .error (e, m8)
  | .ok v9 => .ok { m8 with stick := v9 }

/-- The try body of update_from_json (control_message.py lines 37-60) on the
parsed value: update the timestamp when a t key is present, then dispatch on
the type discriminator; the error side carries the message state reached when
the exception was raised, since assignments made before it persist. -/
def updateBody (m : UnifiedControlMessage) (data : JVal) :
    Except (PyErr × UnifiedControlMessage) UnifiedControlMessage :=
  match pyContains data "t" with
  | .error e => .error (e, m)
  | .ok hasT =>
    let tsRes : Except PyErr JVal :=
      if hasT then pyIndex data "t" else .ok m.timestamp
    match tsRes with
    | .error e => .error (e, m)
    | .ok ts =>
      let m1 := { m with timestamp := ts }
      match pyContains data "type" with
      | .error e => .error (e, m1)
      | .ok hasTy =>
        if hasTy then
          match pyIndex data "type" with
          | .error e => .error (e, m1)
          | .ok mt =>
            if jvalIsStr mt "gear" then
              match pyContains data "gear" with
              | .error e => .error (e, m1)
              | .ok hasG =>
                if hasG then
                  match pyIndex data "gear" with
                  | .error e => .error (e, m1)
                  | .ok g => .ok { m1 with gear := g }
                else .ok m1
            else if jvalIsStr mt "analog" then
              match pyContains data "v" with
              | .error e => .error (e, m1)
              | .ok hasV =>
                if hasV then
                  match pyIndex data "v" with
                  | .error e => .error (e, m1)
                  | .ok vobj => applyAnalog m1 vobj
                else .ok m1
            else .ok m1
        else .ok m1

/-- Which exception classes the except clause of update_from_json catches
besides json.JSONDecodeError (control_message.py line 61). -/
def caughtByUpdate : PyErr → Bool
  | .typeError => true
  | .keyError => true
  | .attributeError => false

/-- update_from_json (control_message.py lines 34-63) applied to the parse
outcome of the input string (none models json.JSONDecodeError): runs the try
body; JSONDecodeError, KeyError and TypeError are caught and yield False with
the partially updated message, a normal run yields True, and any other
exception (such as AttributeError) propagates to the caller. -/
def update_from_json (m : UnifiedControlMessage) (parsed : Option JVal) :
    Except PyErr (UnifiedControlMessage × Bool) :=
  match parsed with
  | none => .ok (m, false)
  | some data =>
    match updateBody m data with
    | .ok m2 => .ok (m2, true)
    | .error (e, m2) => if caughtByUpdate e then .ok (m2, false) else .error e

/-- control_callback (client.py lines 95-112): build a fresh
UnifiedControlMessage (with construction clock t0), update it from the JSON
payload, and install it as the control state only when the update returned
True; on False, or on an exception reaching the outer handler, the prior
state is kept. -/
def control_callback (prior : UnifiedControlMessage) (t0 : ℚ)
    (parsed : Option JVal) : UnifiedControlMessage :=
  match update_from_json (UnifiedControlMessage.init t0) parsed with
  | .ok (m, true) => m
  | .ok (_, false) => prior
  | .error _ => prior

/-- The parsed form of the control JSON of claim C4. -/
def analogThrottleMsg : JVal :=
  .jobj [("type", .jstr "analog"),
         ("v", .jobj [("throttle", .jnum (1 / 2))]),
         ("t", .jnum 1000)]

/-- C2 counterexample: for a 2-by-2 3-channel BGR frame processed with target
encoding i420, the packaged step is 2 (the luma-plane stride w), which is not
at least w times the 3/2 bytes-per-pixel of i420: 2 * step = 4 < 6 = 3 * w. -/
theorem c2_step_counterexample :
    ∃ pd, processing_convert "i420"
        { height := 2, width := 2, channels := 3 } = .ok pd ∧
      ¬ (2 * pd.step ≥ 3 * pd.w) :=
  ⟨_, rfl, by decide⟩

/-- C2 (amended): a successful processing step on a 3-channel raw frame
preserves height and width; the payload length is w * h * 3 bytes for
rgb8/bgr8 and w * h * 3 / 2 bytes for i420; the step is w * 3 (which is at
least w times the 3 bytes-per-pixel) for rgb8/bgr8, while for i420 the step
is w, the luma-plane row stride — not w * 3 / 2 as the claim stated. -/
theorem c2_processing_preserves_shape (enc : String) (f : RawFrame)
    (pd : ProcessedData) (hc : f.channels = 3)
    (h : processing_convert enc f = .ok pd) :
    pd.h = f.height ∧ pd.w = f.width ∧
    (pd.encoding = "i420" →
      2 * pd.dataLen = pd.w * pd.h * 3 ∧
      pd.dataLen = pd.w * pd.h * 3 / 2 ∧ pd.step = pd.w) ∧
    ((pd.encoding = "rgb8" ∨ pd.encoding = "bgr8") →
      pd.dataLen = pd.w * pd.h * 3 ∧
      pd.step = pd.w * 3 ∧ pd.step ≥ pd.w * 3) := by
  simp only [processing_convert] at h
  split_ifs at h with h1 h2 h3
  · rw [Except.ok.injEq] at h
    subst h
    obtain ⟨-, hh, -⟩ := h2
    obtain ⟨k, hk⟩ := Nat.dvd_of_mod_eq_zero hh
    refine ⟨rfl, rfl, fun _ => ?_, fun hcon => by simp at hcon⟩
    simp only [i420ByteLen, hk]
    have h32 : 2 * k * 3 / 2 = 3 * k := by omega
    rw [h32]
    refine ⟨by ring, ?_, trivial⟩
    have hr : f.width * (2 * k) * 3 = 2 * (3 * k * f.width) := by ring
    rw [hr, Nat.mul_div_cancel_left _ (by norm_num)]
  · rw [Except.ok.injEq] at h
    subst h
    exact ⟨rfl, rfl, fun hcon => by simp at hcon,
           fun _ => ⟨by ring, rfl, le_refl _⟩⟩
  · rw [Except.ok.injEq] at h
    subst h
    refine ⟨rfl, rfl, fun hcon => by simp at hcon,
            fun _ => ⟨?_, rfl, le_refl _⟩⟩
    simp only [hc]
    ring

/-- Witness for C2 (amended) at a 2-by-2 rgb8 conversion. -/
theorem c2_processing_preserves_shape_witness :
    (2 : Nat) = 2 ∧ (2 : Nat) = 2 ∧
    (("rgb8" : String) = "i420" →
      2 * 12 = 2 * 2 * 3 ∧ (12 : Nat) = 2 * 2 * 3 / 2 ∧ (6 : Nat) = 2) ∧
    ((("rgb8" : String) = "rgb8" ∨ ("rgb8" : String) = "bgr8") →
      (12 : Nat) = 2 * 2 * 3 ∧ (6 : Nat) = 2 * 3 ∧ (6 : Nat) ≥ 2 * 3) :=
  c2_processing_preserves_shape "rgb8"
    { height := 2, width := 2, channels := 3 }
    { dataLen := 12, h := 2, w := 2, encoding := "rgb8", step := 6 } rfl rfl

/-- C3: each publish tick performs exactly one non-blocking take on the
processed-frame queue and publishes at most one message; an empty queue makes
the tick a no-op (state unchanged, nothing published); a non-empty queue
makes it publish exactly one Image built from the packaged frame at the head
and stamped with the freshly read clock value, and every message published by
a tick carries that tick's clock value. -/
theorem c3_publish_tick (clock : Nat) (q : List ProcessedData) :
    (publish_frame clock q).2.length ≤ 1 ∧
    (q = [] → publish_frame clock q = (q, [])) ∧
    (∀ p t, q = p :: t →
      publish_frame clock q =
        (t, [{ stamp := clock, frame_id := "camera_link", height := p.h,
               width := p.w, encoding := p.encoding, is_bigendian := 0,
               step := p.step, dataLen := p.dataLen }])) ∧
    (∀ msg ∈ (publish_frame clock q).2, msg.stamp = clock) := by
  cases q with
  | nil =>
    refine ⟨by simp [publish_frame, try_take], fun _ => rfl, ?_, ?_⟩
    · intro p t ht
      exact absurd ht (by simp)
    · intro msg hmsg
      simp [publish_frame, try_take] at hmsg
  | cons p t =>
    refine ⟨by simp [publish_frame, try_take], ?_, ?_, ?_⟩
    · intro ht
      exact absurd ht (by simp)
    · intro p2 t2 ht
      cases ht
      rfl
    · intro msg hmsg
      simp [publish_frame, try_take] at hmsg
      rw [hmsg]

/-- Witness for C3 at the empty queue: the tick is a no-op. -/
theorem c3_publish_tick_witness :
    publish_frame 5 ([] : List ProcessedData) = ([], []) :=
  (c3_publish_tick 5 []).2.1 rfl

/-- C5: a raw 1280 by 720 3-channel BGR frame processed with target encoding
i420 yields a payload of exactly 1280 * 720 * 3 / 2 = 1382400 bytes with
reported row stride 1280, the luma-plane width; the client's
publish_video_frame packaging of the same frame reports the same stride and
payload length. -/
theorem c5_i420_720p_payload :
    processing_convert "i420"
        { height := 720, width := 1280, channels := 3 } =
      .ok { dataLen := 1382400, h := 720, w := 1280,
            encoding := "i420", step := 1280 } ∧
    (1382400 : Nat) = 1280 * 720 * 3 / 2 ∧
    publish_video_frame_msg 0 720 1280 =
      { stamp := 0, frame_id := "camera_link", height := 720, width := 1280,
        encoding := "i420", is_bigendian := 0, step := 1280,
        dataLen := 1382400 } :=
  ⟨rfl, by norm_num, rfl⟩

/-- C6: destroy_node clears the lifecycle flag; once a loop guard observes
the cleared flag, the capture loop and the processing loop exit immediately —
every later trace entry (at most one bounded wait of processingGetTimeout =
1 s away for the processing loop) is ignored, no further item is processed,
and both loops return normally (they are total functions, so no exception
escapes the loop boundary after the flag is cleared). -/
theorem c6_stop_flag_halts_loops (enc : String) :
    (∀ s, (destroy_node s).running = false) ∧
    processingGetTimeout = 1 ∧
    (∀ pre post r q,
      capture_loop (pre ++ (false, r) :: post) q = capture_loop pre q) ∧
    (∀ pre post r pq,
      processing_loop enc (pre ++ (false, r) :: post) pq =
        processing_loop enc pre pq) := by
  refine ⟨fun _ => rfl, rfl, ?_, ?_⟩
  · intro pre post r q
    induction pre generalizing q with
    | nil => rfl
    | cons hd tl ih =>
      obtain ⟨b, rr⟩ := hd
      cases b with
      | false => rfl
      | true => exact ih _
  · intro pre post r pq
    induction pre generalizing pq with
    | nil => rfl
    | cons hd tl ih =>
      obtain ⟨b, rr⟩ := hd
      cases b with
      | false => rfl
      | true => exact ih _

/-- C7: when the conversion of a frame raises, the processing iteration logs
the failure and drops the frame (the processed queue is unchanged), and the
loop simply continues with the remaining trace: the failure never terminates
the pipeline and the failed frame is never retried. -/
theorem c7_conversion_failure_dropped (enc : String) (f : RawFrame)
    (e : String) (pq : List ProcessedData)
    (rest : List (Bool × Option RawFrame))
    (h : processing_convert enc f = .error e) :
    processing_iteration enc (some f) pq =
      (pq, ["processing thread error: " ++ e]) ∧
    processing_loop enc ((true, some f) :: rest) pq =
      processing_loop enc rest pq := by
  have hi : processing_iteration enc (some f) pq =
      (pq, ["processing thread error: " ++ e]) := by
    simp [processing_iteration, h]
  refine ⟨hi, ?_⟩
  show processing_loop enc rest (processing_iteration enc (some f) pq).1 = _
  rw [hi]

/-- Witness for C7 at an odd-height frame, which the I420 conversion
rejects. -/
theorem c7_conversion_failure_dropped_witness :
    processing_iteration "i420"
        (some { height := 1, width := 2, channels := 3 }) [] =
      ([], ["processing thread error: " ++
            "cvtColor COLOR_BGR2YUV_I420 failed"]) ∧
    processing_loop "i420"
        [(true, some { height := 1, width := 2, channels := 3 })] [] =
      processing_loop "i420" [] [] :=
  c7_conversion_failure_dropped "i420"
    { height := 1, width := 2, channels := 3 }
    "cvtColor COLOR_BGR2YUV_I420 failed" [] [] rfl

/-- C8: a missing or unopened capture handle at construction time is fatal —
the errors are logged and the process exits with code 1 — whereas a failed
read in the steady-state capture loop leaves the queue untouched and backs
off for the fixed 0.01 s delay before retrying, never terminating the
loop. -/
theorem c8_open_fatal_read_retry :
    (∀ cap, (cap = none ∨ ∃ c, cap = some c ∧ c.opened = false) →
      check_camera cap =
        (.exitProcess 1, ["cannot open camera", "troubleshooting hints"])) ∧
    (∀ q, capture_iteration none q = (q, .retryAfterSleep (1 / 100))) := by
  constructor
  · rintro cap (rfl | ⟨c, rfl, hc⟩)
    · rfl
    · simp [check_camera, hc]
  · intro q
    rfl

/-- Witness for C8 when open_camera returned no handle. -/
theorem c8_open_fatal_read_retry_witness :
    check_camera none =
      (.exitProcess 1, ["cannot open camera", "troubleshooting hints"]) :=
  c8_open_fatal_read_retry.1 none (Or.inl rfl)

/-- C9: the effective encoding is the lowercased argument whenever that is
one of bgr8, rgb8, i420; any other argument produces a warning and a silent
fallback to i420, and the constructor always continues with one of the three
supported encodings — an unsupported encoding is never fatal. -/
theorem c9_encoding_fallback (s : String) :
    ((pyLower s = "bgr8" ∨ pyLower s = "rgb8" ∨ pyLower s = "i420") →
      init_encoding s = (pyLower s, [])) ∧
    ((pyLower s ≠ "bgr8" ∧ pyLower s ≠ "rgb8" ∧ pyLower s ≠ "i420") →
      init_encoding s =
        ("i420", ["unsupported encoding, falling back to i420"])) ∧
    ((init_encoding s).1 = "bgr8" ∨ (init_encoding s).1 = "rgb8" ∨
      (init_encoding s).1 = "i420") := by
  simp only [init_encoding]
  split_ifs with h
  · exact ⟨fun _ => rfl, fun hn => absurd h (by tauto), by tauto⟩
  · exact ⟨fun hy => absurd hy h, fun _ => rfl, by simp⟩

/-- Witness for C9 at the unsupported encoding argument Foo. -/
theorem c9_encoding_fallback_witness :
    init_encoding "Foo" =
      ("i420", ["unsupported encoding, falling back to i420"]) :=
  (c9_encoding_fallback "Foo").2.1 (by decide)

/-- C4 counterexample: through the client's control-message handling path
(control_callback), a prior state with rotation 1 ends with rotation 0 after
the throttle-only analog message: the non-throttle axes come from a freshly
constructed default message, not from the prior state, so they are not
unchanged from the prior state. -/
theorem c4_callback_resets_other_axes :
    (control_callback
        { UnifiedControlMessage.init 0 with rotation := .jnum 1 } 0
        (some analogThrottleMsg)).rotation = .jnum 0 ∧
    ({ UnifiedControlMessage.init 0 with rotation := .jnum 1 } :
        UnifiedControlMessage).rotation = .jnum 1 ∧
    JVal.jnum 0 ≠ JVal.jnum 1 := by
  refine ⟨rfl, rfl, ?_⟩
  intro hcontra
  rw [JVal.jnum.injEq] at hcontra
  norm_num at hcontra

/-- C4 (amended): applying update_from_json for the message with type analog,
v containing only throttle 0.5, and t 1000 directly to the prior control
state yields throttle = 0.5, timestamp = 1000, and every other axis unchanged
from the prior state; through the client callback path the update is instead
applied to a fresh default message, so prior axis values are not preserved
there. -/
theorem c4_update_throttle_direct (m : UnifiedControlMessage) :
    update_from_json m (some analogThrottleMsg) =
      .ok ({ m with throttle := .jnum (1 / 2), timestamp := .jnum 1000 },
           true) := rfl

/-- C10: update_from_json returns False exactly when the parse failed
(JSONDecodeError) or the try body raised one of the caught exception classes
(KeyError, TypeError); and on any parsed JSON object whose type discriminator
is absent, is not gear/analog, or whose payload key (gear for type gear, v
for type analog) is missing, it returns True leaving every control field
unchanged except the timestamp, which is set to the t entry exactly when a t
key is present. -/
theorem c10_update_result_semantics (m : UnifiedControlMessage)
    (parsed : Option JVal) :
    ((∃ m2, update_from_json m parsed = .ok (m2, false)) ↔
      (parsed = none ∨
        ∃ data e m2, parsed = some data ∧
          updateBody m data = .error (e, m2) ∧ caughtByUpdate e = true)) ∧
    (∀ fs, parsed = some (.jobj fs) →
      (∀ ty, List.lookup "type" fs = some ty →
        (jvalIsStr ty "gear" = true → List.lookup "gear" fs = none) ∧
        (jvalIsStr ty "analog" = true → List.lookup "v" fs = none)) →
      update_from_json m parsed =
        .ok ({ m with
               timestamp := (List.lookup "t" fs).getD m.timestamp }, true)) := by
  constructor
  · cases parsed with
    | none => simp [update_from_json]
    | some data =>
      cases hB : updateBody m data with
      | ok m2 => simp [update_from_json, hB]
      | error em =>
        obtain ⟨e, m2⟩ := em
        cases he : caughtByUpdate e <;>
          simp [update_from_json, hB, he]
  · rintro fs rfl hG
    cases hT : List.lookup "t" fs with
    | none =>
      cases hTy : List.lookup "type" fs with
      | none =>
        simp [update_from_json, updateBody, pyContains, pyIndex, hT, hTy]
      | some ty =>
        obtain ⟨hg1, hg2⟩ := hG ty hTy
        cases hg : jvalIsStr ty "gear" with
        | true =>
          simp [update_from_json, updateBody, pyContains, pyIndex, hT, hTy,
                hg, hg1 hg]
        | false =>
          cases ha : jvalIsStr ty "analog" with
          | true =>
            simp [update_from_json, updateBody, pyContains, pyIndex, hT,
                  hTy, hg, ha, hg2 ha]
          | false =>
            simp [update_from_json, updateBody, pyContains, pyIndex, hT,
                  hTy, hg, ha]
    | some tv =>
      cases hTy : List.lookup "type" fs with
      | none =>
        simp [update_from_json, updateBody, pyContains, pyIndex, hT, hTy]
      | some ty =>
        obtain ⟨hg1, hg2⟩ := hG ty hTy
        cases hg : jvalIsStr ty "gear" with
        | true =>
          simp [update_from_json, updateBody, pyContains, pyIndex, hT, hTy,
                hg, hg1 hg]
        | false =>
          cases ha : jvalIsStr ty "analog" with
          | true =>
            simp [update_from_json, updateBody, pyContains, pyIndex, hT,
                  hTy, hg, ha, hg2 ha]
          | false =>
            simp [update_from_json, updateBody, pyContains, pyIndex, hT,
                  hTy, hg, ha]

/-- Witness for C10 at an unrecognized type discriminator with a t key: the
update returns True and only the timestamp changes. -/
theorem c10_update_result_semantics_witness :
    update_from_json (UnifiedControlMessage.init 0)
        (some (.jobj [("type", .jstr "speed"), ("t", .jnum 7)])) =
      .ok ({ UnifiedControlMessage.init 0 with timestamp := .jnum 7 },
           true) :=
  (c10_update_result_semantics (UnifiedControlMessage.init 0)
      (some (.jobj [("type", .jstr "speed"), ("t", .jnum 7)]))).2
    [("type", .jstr "speed"), ("t", .jnum 7)] rfl
    (by
      intro ty hty
      have hty2 : some (JVal.jstr "speed") = some ty := hty
      cases hty2
      exact ⟨fun hfalse => absurd hfalse (by decide),
             fun hfalse => absurd hfalse (by decide)⟩)
